import Mathlib

/-!
Verification of the Noteece mobile sync bridge
(`NoteeceCore.h`, `NoteeceCore.cpp`, `sync_jsi.cpp`) against its
specification.

The C++ code is glue between a mobile runtime and a Rust sync agent
reached through a flat C FFI surface.  We embed it shallowly:

* the Rust side is an abstract pure oracle (`RustFFI`); each C function
  returning `char*` becomes `Option String` (`none` models a null
  pointer), each `void`-returning C function becomes a `Unit`-valued
  field (faithful to the declared signatures: no information can flow
  back through them);
* JSI values are `JSVal`; a host function returns
  `Except String JSVal`, where `Except.error` models a thrown
  `jsi::JSError`;
* the `NoteeceCore` C++ class becomes a record of its two fields, and
  each member function becomes a pure function returning its result,
  the successor state, and the list of FFI calls it performed;
* the JNI entry points take the `g_core` singleton (`Option NoteeceCore`)
  explicitly.
-/

namespace Noteece

/-- Model of a JSI value as far as the bridge inspects it:
`isString`, `isNumber`, `asString`, `asNumber`.  JS numbers are modelled
as rationals. -/
inductive JSVal where
  | undefined
  | boolean (b : Bool)
  | num (q : ℚ)
  | str (s : String)
deriving DecidableEq

/-- Abstract oracle for the Rust FFI surface declared in
`NoteeceCore.cpp` and `sync_jsi.cpp`.  `char*` results are
`Option String` (`none` = null pointer); `void` results are `Unit`. -/
structure RustFFI where
  init_core : String → Option Nat
  shutdown_core : Nat → Unit
  discover_devices : Option String
  register_device : String → Unit
  initiate_key_exchange : String → Option String
  complete_key_exchange : String → String → Unit
  process_sync_packet : String → Option String
  generate_handshake : Option String
  get_sync_progress : String → Option String
  start_sync : String → Unit
  cancel_sync : String → Unit
  get_conflicts : Option String
  resolve_conflict : String → String → Unit
  get_sync_history : Int → Option String

/-- Model of `rustToJSIString` in `sync_jsi.cpp`: a null pointer becomes
the empty JSI string, otherwise the string is copied through. -/
def rustStrToJSI : Option String → JSVal
  | none => JSVal.str ""
  | some s => JSVal.str s

/-- Model of `static_cast<int>(double)`: truncation toward zero of a
rational (overflow ignored). -/
def truncInt (q : ℚ) : Int :=
  if 0 ≤ q.num then ((q.num.natAbs / q.den : Nat) : Int)
  else -((q.num.natAbs / q.den : Nat) : Int)

/-- Binding `discoverDevices()` from `installSyncJSI`. -/
def discoverDevicesJSI (ffi : RustFFI) (_args : List JSVal) : Except String JSVal :=
  Except.ok (rustStrToJSI ffi.discover_devices)

/-- Binding `registerDevice(deviceJson)` from `installSyncJSI`. -/
def registerDeviceJSI (ffi : RustFFI) (args : List JSVal) : Except String JSVal :=
  match args with
  | JSVal.str s :: _ =>
      let _ := ffi.register_device s
      Except.ok JSVal.undefined
  | _ => Except.error "registerDevice requires a string argument"

/-- Binding `initiateKeyExchange(deviceId)` from `installSyncJSI`. -/
def initiateKeyExchangeJSI (ffi : RustFFI) (args : List JSVal) : Except String JSVal :=
  match args with
  | JSVal.str d :: _ => Except.ok (rustStrToJSI (ffi.initiate_key_exchange d))
  | _ => Except.error "initiateKeyExchange requires a device ID"

/-- Binding `completeKeyExchange(deviceId, peerPublicKey)` from
`installSyncJSI`.  `rust_complete_key_exchange` returns `void`, so the
binding always answers `undefined` on well-typed arguments. -/
def completeKeyExchangeJSI (ffi : RustFFI) (args : List JSVal) : Except String JSVal :=
  match args with
  | JSVal.str d :: JSVal.str k :: _ =>
      let _ := ffi.complete_key_exchange d k
      Except.ok JSVal.undefined
  | _ => Except.error "completeKeyExchange requires deviceId and peerPublicKey"

/-- Binding `startSync(deviceId)` from `installSyncJSI`.
`rust_start_sync` returns `void`. -/
def startSyncJSI (ffi : RustFFI) (args : List JSVal) : Except String JSVal :=
  match args with
  | JSVal.str d :: _ =>
      let _ := ffi.start_sync d
      Except.ok JSVal.undefined
  | _ => Except.error "startSync requires a device ID"

/-- Binding `cancelSync(deviceId)` from `installSyncJSI`. -/
def cancelSyncJSI (ffi : RustFFI) (args : List JSVal) : Except String JSVal :=
  match args with
  | JSVal.str d :: _ =>
      let _ := ffi.cancel_sync d
      Except.ok JSVal.undefined
  | _ => Except.error "cancelSync requires a device ID"

/-- Binding `getSyncProgress(deviceId)` from `installSyncJSI`. -/
def getSyncProgressJSI (ffi : RustFFI) (args : List JSVal) : Except String JSVal :=
  match args with
  | JSVal.str d :: _ => Except.ok (rustStrToJSI (ffi.get_sync_progress d))
  | _ => Except.error "getSyncProgress requires a device ID"

/-- Binding `getConflicts()` from `installSyncJSI`. -/
def getConflictsJSI (ffi : RustFFI) (_args : List JSVal) : Except String JSVal :=
  Except.ok (rustStrToJSI ffi.get_conflicts)

/-- Binding `resolveConflict(conflictId, resolution)` from
`installSyncJSI`. -/
def resolveConflictJSI (ffi : RustFFI) (args : List JSVal) : Except String JSVal :=
  match args with
  | JSVal.str cid :: JSVal.str r :: _ =>
      let _ := ffi.resolve_conflict cid r
      Except.ok JSVal.undefined
  | _ => Except.error "resolveConflict requires conflictId and resolution"

/-- Binding `getSyncHistory(limit)` from `installSyncJSI`: the limit
defaults to 20 when the first argument is absent or not a number,
otherwise the number is truncated to an `int` and passed through. -/
def getSyncHistoryJSI (ffi : RustFFI) (args : List JSVal) : Except String JSVal :=
  let limit : Int :=
    match args with
    | JSVal.num q :: _ => truncInt q
    | _ => 20
  Except.ok (rustStrToJSI (ffi.get_sync_history limit))

/-- The `__SyncJSI` module assembled by `installSyncJSI`, as the ordered
list of (property name, host function) pairs installed by the
`setProperty` calls in `sync_jsi.cpp`. -/
def syncJSIModule : List (String × (RustFFI → List JSVal → Except String JSVal)) :=
  [("discoverDevices", discoverDevicesJSI),
   ("registerDevice", registerDeviceJSI),
   ("initiateKeyExchange", initiateKeyExchangeJSI),
   ("completeKeyExchange", completeKeyExchangeJSI),
   ("startSync", startSyncJSI),
   ("cancelSync", cancelSyncJSI),
   ("getSyncProgress", getSyncProgressJSI),
   ("getConflicts", getConflictsJSI),
   ("resolveConflict", resolveConflictJSI),
   ("getSyncHistory", getSyncHistoryJSI)]

/-- State of a `NoteeceCore` C++ instance: the opaque `void* rust_agent`
handle (`Option Nat`, `none` = `nullptr`) and the `is_initialized`
flag (field written `isInitialized` after the public getter, to match
Lean naming). -/
structure NoteeceCore where
  rust_agent : Option Nat
  isInitialized : Bool
deriving DecidableEq

/-- Trace entries recording which Rust FFI functions a member call
invoked (used to state that guarded paths never reach the core). -/
inductive FFICall where
  | callInitCore (db_path : String)
  | callShutdownCore (handle : Nat)
  | callDiscoverDevices
  | callInitiateKeyExchange (device_id : String)
  | callProcessSyncPacket (data : String)
  | callGenerateHandshake
  | callGetSyncProgress (device_id : String)
deriving DecidableEq

/-- The JSON sentinel `R"({"error": "core_not_initialized"})"`. -/
def errNotInit : String := "\x7b\"error\": \"core_not_initialized\"\x7d"

/-- The JSON sentinel `R"({"error": "null_response"})"`. -/
def errNullResp : String := "\x7b\"error\": \"null_response\"\x7d"

/-- The JSON sentinel `R"({"error": "key_exchange_failed"})"`. -/
def errKeyExchange : String := "\x7b\"error\": \"key_exchange_failed\"\x7d"

/-- The snapshot default `R"({"progress": 0, "phase": "unknown"})"`
returned by `NoteeceCore::get_sync_progress` on a null core response. -/
def progressDefault : String := "\x7b\"progress\": 0, \"phase\": \"unknown\"\x7d"

/-- The default `R"({"progress": 0})"` returned by the JNI entry
`nativeGetSyncProgress` when `g_core` is null. -/
def jniProgressNoCore : String := "\x7b\"progress\": 0\x7d"

/-- Model of the constructor `NoteeceCore::NoteeceCore()`:
`rust_agent(nullptr), is_initialized(false)`. -/
def newCore : NoteeceCore := ⟨none, false⟩

/-- Model of `NoteeceCore::initialize(db_path)`: returns `(result,
successor state, FFI calls made)`.  Already-initialized instances
return `true` immediately without touching the core. -/
def initializeCore (ffi : RustFFI) (c : NoteeceCore) (db_path : String) :
    Bool × NoteeceCore × List FFICall :=
  if c.isInitialized then
    (true, c, [])
  else
    match ffi.init_core db_path with
    | some h => (true, ⟨some h, true⟩, [FFICall.callInitCore db_path])
    | none => (false, ⟨none, c.isInitialized⟩, [FFICall.callInitCore db_path])

/-- Model of `NoteeceCore::shutdown()`: a no-op when the handle is
already null, otherwise releases it and clears the flag.  The
destructor simply calls this. -/
def shutdown (ffi : RustFFI) (c : NoteeceCore) : NoteeceCore × List FFICall :=
  match c.rust_agent with
  | some h =>
      let _ := ffi.shutdown_core h
      (⟨none, false⟩, [FFICall.callShutdownCore h])
  | none => (c, [])

/-- Model of `NoteeceCore::process_sync_packet(data)`. -/
def process_sync_packet (ffi : RustFFI) (c : NoteeceCore) (data : String) :
    String × NoteeceCore × List FFICall :=
  if c.isInitialized then
    match ffi.process_sync_packet data with
    | none => (errNullResp, c, [FFICall.callProcessSyncPacket data])
    | some s => (s, c, [FFICall.callProcessSyncPacket data])
  else
    (errNotInit, c, [])

/-- Model of `NoteeceCore::generate_handshake()`: returns the empty
string when uninitialized or when the core answers null. -/
def generate_handshake (ffi : RustFFI) (c : NoteeceCore) :
    String × NoteeceCore × List FFICall :=
  if c.isInitialized then
    match ffi.generate_handshake with
    | none => ("", c, [FFICall.callGenerateHandshake])
    | some s => (s, c, [FFICall.callGenerateHandshake])
  else
    ("", c, [])

/-- Model of `NoteeceCore::discover_devices()`: no initialization
check; null becomes `"[]"`. -/
def discover_devices (ffi : RustFFI) (c : NoteeceCore) :
    String × NoteeceCore × List FFICall :=
  match ffi.discover_devices with
  | none => ("[]", c, [FFICall.callDiscoverDevices])
  | some s => (s, c, [FFICall.callDiscoverDevices])

/-- Model of `NoteeceCore::initiate_key_exchange(device_id)`: no
initialization check; null becomes the key-exchange error sentinel. -/
def initiate_key_exchange (ffi : RustFFI) (c : NoteeceCore) (device_id : String) :
    String × NoteeceCore × List FFICall :=
  match ffi.initiate_key_exchange device_id with
  | none => (errKeyExchange, c, [FFICall.callInitiateKeyExchange device_id])
  | some s => (s, c, [FFICall.callInitiateKeyExchange device_id])

/-- Model of `NoteeceCore::get_sync_progress(device_id)`: no
initialization check; null becomes the snapshot default. -/
def get_sync_progress (ffi : RustFFI) (c : NoteeceCore) (device_id : String) :
    String × NoteeceCore × List FFICall :=
  match ffi.get_sync_progress device_id with
  | none => (progressDefault, c, [FFICall.callGetSyncProgress device_id])
  | some s => (s, c, [FFICall.callGetSyncProgress device_id])

/-- Model of the JNI entry `nativeGetSyncProgress`: when the `g_core`
singleton is null it returns `R"({"progress": 0})"`, otherwise it
forwards to the member function. -/
def nativeGetSyncProgress (ffi : RustFFI) (g_core : Option NoteeceCore)
    (device_id : String) : String × Option NoteeceCore :=
  match g_core with
  | none => (jniProgressNoCore, none)
  | some c => ((get_sync_progress ffi c device_id).1, some c)

/-- Model of the JNI entry `nativeGenerateHandshake`: the empty string
when `g_core` is null, otherwise the member result. -/
def nativeGenerateHandshake (ffi : RustFFI) (g_core : Option NoteeceCore) :
    String × Option NoteeceCore :=
  match g_core with
  | none => ("", none)
  | some c => ((generate_handshake ffi c).1, some c)

/-- Operations a `NoteeceCore` instance supports (the member functions
of the class). -/
inductive CoreOp where
  | doInit (db_path : String)
  | doShutdown
  | doProcess (data : String)
  | doHandshake
  | doDiscover
  | doInitiateKE (device_id : String)
  | doProgress (device_id : String)
deriving DecidableEq

/-- State transition of one instance under one member call. -/
def stepCore (ffi : RustFFI) (c : NoteeceCore) : CoreOp → NoteeceCore
  | CoreOp.doInit db => (initializeCore ffi c db).2.1
  | CoreOp.doShutdown => (shutdown ffi c).1
  | CoreOp.doProcess data => (process_sync_packet ffi c data).2.1
  | CoreOp.doHandshake => (generate_handshake ffi c).2.1
  | CoreOp.doDiscover => (discover_devices ffi c).2.1
  | CoreOp.doInitiateKE d => (initiate_key_exchange ffi c d).2.1
  | CoreOp.doProgress d => (get_sync_progress ffi c d).2.1

/-- Run a sequence of member calls on a single instance. -/
def runOps (ffi : RustFFI) (c : NoteeceCore) : List CoreOp → NoteeceCore
  | [] => c
  | op :: rest => runOps ffi (stepCore ffi c op) rest

/-- Run an interleaved sequence of member calls on a pair of separately
constructed instances; `true` targets the first instance, `false` the
second. -/
def runPair (ffi : RustFFI) (p : NoteeceCore × NoteeceCore) :
    List (Bool × CoreOp) → NoteeceCore × NoteeceCore
  | [] => p
  | (true, op) :: rest => runPair ffi (stepCore ffi p.1 op, p.2) rest
  | (false, op) :: rest => runPair ffi (p.1, stepCore ffi p.2 op) rest

/-- The subsequence of an interleaving addressed to one side. -/
def sideOps (side : Bool) (ops : List (Bool × CoreOp)) : List CoreOp :=
  (ops.filter (fun x => x.1 == side)).map Prod.snd

/-- Invariant relating the two fields of a `NoteeceCore` instance. -/
def coreInv (c : NoteeceCore) : Prop :=
  c.isInitialized = true ↔ c.rust_agent ≠ none

/-- Outcome of a recorded sync session (spec section 3). -/
inductive SyncOutcome where
  | completed
  | cancelled
  | failed
deriving DecidableEq

/-- A history log entry (spec section 3): append-only record of a
completed sync session. -/
structure HistoryEntry where
  session_id : String
  device_id : String
  started_at : Nat
  ended_at : Nat
  bytes_transferred : Nat
  outcome : SyncOutcome
  conflict_ids : List String
deriving DecidableEq

/-- Modelled from the spec: the HistoryLog query behind
`rust_get_sync_history` lives in the Rust core, which is not under
`src/` (only the FFI declaration and its caller are).  Spec section 4.6:
the most recent `limit` entries in reverse chronological order (most
recent first); `limit <= 0` is clamped to a minimum of 1; entries
beyond the limit are omitted.  The log is kept in append
(chronological) order. -/
def get_sync_history (log : List HistoryEntry) (limit : Int) : List HistoryEntry :=
  log.reverse.take (max limit 1).toNat

/-- Sample oracle whose pointer-returning functions all answer null. -/
def ffi0 : RustFFI :=
  { init_core := fun _ => none
    shutdown_core := fun _ => ()
    discover_devices := none
    register_device := fun _ => ()
    initiate_key_exchange := fun _ => none
    complete_key_exchange := fun _ _ => ()
    process_sync_packet := fun _ => none
    generate_handshake := none
    get_sync_progress := fun _ => none
    start_sync := fun _ => ()
    cancel_sync := fun _ => ()
    get_conflicts := none
    resolve_conflict := fun _ _ => ()
    get_sync_history := fun _ => none }

/-- Sample oracle whose pointer-returning functions all succeed. -/
def ffiLive : RustFFI :=
  { init_core := fun _ => some 1
    shutdown_core := fun _ => ()
    discover_devices := some "[]"
    register_device := fun _ => ()
    initiate_key_exchange := fun _ => some "ok"
    complete_key_exchange := fun _ _ => ()
    process_sync_packet := fun _ => some "ack"
    generate_handshake := some "hs"
    get_sync_progress := fun _ => some "p"
    start_sync := fun _ => ()
    cancel_sync := fun _ => ()
    get_conflicts := some "[]"
    resolve_conflict := fun _ _ => ()
    get_sync_history := fun _ => some "[]" }

/-- Probe oracle that reports back the exact limit it received. -/
def ffiProbe : RustFFI :=
  { ffi0 with get_sync_history := fun n => some (toString n) }

/-- Concrete history entry (session ended at time 1). -/
def he1 : HistoryEntry :=
  ⟨"s1", "d1", 0, 1, 10, SyncOutcome.completed, []⟩

/-- Concrete history entry (session ended at time 3). -/
def he2 : HistoryEntry :=
  ⟨"s2", "d1", 2, 3, 20, SyncOutcome.cancelled, []⟩

/-- Decidable equality of host-function results. -/
instance : DecidableEq (Except String JSVal) := fun a b =>
  match a, b with
  | Except.ok x, Except.ok y => decidable_of_iff (x = y) (by simp)
  | Except.error x, Except.error y => decidable_of_iff (x = y) (by simp)
  | Except.ok _, Except.error _ => isFalse (by simp)
  | Except.error _, Except.ok _ => isFalse (by simp)

/-- Member calls other than init and shutdown leave the instance state
unchanged (`process_sync_packet`). -/
theorem process_state_eq (ffi : RustFFI) (c : NoteeceCore) (data : String) :
    (process_sync_packet ffi c data).2.1 = c := by
  cases hc : c.isInitialized
  · simp [process_sync_packet, hc]
  · cases hr : ffi.process_sync_packet data <;>
      simp [process_sync_packet, hc, hr]

/-- Member calls other than init and shutdown leave the instance state
unchanged (`generate_handshake`). -/
theorem handshake_state_eq (ffi : RustFFI) (c : NoteeceCore) :
    (generate_handshake ffi c).2.1 = c := by
  cases hc : c.isInitialized
  · simp [generate_handshake, hc]
  · cases hr : ffi.generate_handshake <;> simp [generate_handshake, hc, hr]

/-- Member calls other than init and shutdown leave the instance state
unchanged (`discover_devices`). -/
theorem discover_state_eq (ffi : RustFFI) (c : NoteeceCore) :
    (discover_devices ffi c).2.1 = c := by
  cases hr : ffi.discover_devices <;> simp [discover_devices, hr]

/-- Member calls other than init and shutdown leave the instance state
unchanged (`initiate_key_exchange`). -/
theorem initiateKE_state_eq (ffi : RustFFI) (c : NoteeceCore) (d : String) :
    (initiate_key_exchange ffi c d).2.1 = c := by
  cases hr : ffi.initiate_key_exchange d <;> simp [initiate_key_exchange, hr]

/-- Member calls other than init and shutdown leave the instance state
unchanged (`get_sync_progress`). -/
theorem progress_state_eq (ffi : RustFFI) (c : NoteeceCore) (d : String) :
    (get_sync_progress ffi c d).2.1 = c := by
  cases hr : ffi.get_sync_progress d <;> simp [get_sync_progress, hr]

/-- C1 (counterexample): when the core is not yet initialized (null
`g_core`), the JNI entry `nativeGetSyncProgress` answers the JSON object
with only a `progress` field, which differs from the snapshot default
with `"phase": "unknown"` that the claim promises. -/
theorem nativeGetSyncProgress_missing_phase_cex :
    (nativeGetSyncProgress ffi0 none "device-1").1 = jniProgressNoCore ∧
    (nativeGetSyncProgress ffi0 none "device-1").1 ≠ progressDefault :=
  ⟨rfl, by decide⟩

/-- C1 (amended): `NoteeceCore::get_sync_progress` returns the snapshot
default with `progress` 0 and `phase` unknown whenever the underlying
core answers null, regardless of the instance's initialization state,
and passes the core's answer through otherwise — the member introduces
no error sentinel of its own.  The JNI entry `nativeGetSyncProgress`,
however, answers the shorter object without the `phase` field whenever
`g_core` is null. -/
theorem getSyncProgress_snapshot_default_amended :
    (∀ (ffi : RustFFI) (c : NoteeceCore) (d : String),
        ffi.get_sync_progress d = none →
        (get_sync_progress ffi c d).1 = progressDefault) ∧
    (∀ (ffi : RustFFI) (c : NoteeceCore) (d s : String),
        ffi.get_sync_progress d = some s →
        (get_sync_progress ffi c d).1 = s) ∧
    (∀ (ffi : RustFFI) (d : String),
        (nativeGetSyncProgress ffi none d).1 = jniProgressNoCore) ∧
    jniProgressNoCore ≠ progressDefault := by
  refine ⟨?_, ?_, fun _ _ => rfl, by decide⟩
  · intro ffi c d h
    simp [get_sync_progress, h]
  · intro ffi c d s h
    simp [get_sync_progress, h]

/-- Witness for the amended C1 theorem: a concrete oracle answering
null for every device yields the snapshot default. -/
theorem getSyncProgress_snapshot_default_witness :
    (get_sync_progress ffi0 newCore "device-1").1 = progressDefault :=
  getSyncProgress_snapshot_default_amended.1 ffi0 newCore "device-1" rfl

/-- C2 (counterexample): `generateHandshake` and `processSyncPacket`
are not among the properties `installSyncJSI` installs on the
`__SyncJSI` module, so the module does not expose all twelve claimed
operations. -/
theorem syncJSI_missing_ops_cex :
    "generateHandshake" ∉ syncJSIModule.map Prod.fst ∧
    "processSyncPacket" ∉ syncJSIModule.map Prod.fst := by
  constructor <;> decide

/-- C2 (amended): `installSyncJSI` installs exactly ten callable
properties on `__SyncJSI` — the twelve listed in the spec minus
`generateHandshake` and `processSyncPacket`, which are exposed as JNI
entry points of `NoteeceCore.cpp` instead. -/
theorem syncJSI_installed_ops_amended :
    syncJSIModule.map Prod.fst =
      ["discoverDevices", "registerDevice", "initiateKeyExchange",
       "completeKeyExchange", "startSync", "cancelSync", "getSyncProgress",
       "getConflicts", "resolveConflict", "getSyncHistory"] := rfl

/-- C3 (counterexample): `NoteeceCore::generate_handshake` answers the
bare empty string both when the instance is uninitialized and when the
underlying core answers null, and the JNI entry does the same when
`g_core` is null — the two failure kinds produce identical,
unstructured results. -/
theorem generate_handshake_bare_failure_cex :
    (generate_handshake ffi0 newCore).1 = "" ∧
    (generate_handshake ffi0 ⟨some 1, true⟩).1 = "" ∧
    (nativeGenerateHandshake ffi0 none).1 = "" :=
  ⟨rfl, rfl, rfl⟩

/-- C3 (amended): `process_sync_packet` returns distinct structured
sentinels for its two failure kinds and `initiate_key_exchange` returns
a structured sentinel on a null core response, but `generate_handshake`
returns the bare empty string for both of its failure kinds, so its
failures carry no kind information. -/
theorem structured_errors_amended :
    (∀ (ffi : RustFFI) (c : NoteeceCore) (data : String),
        c.isInitialized = false →
        (process_sync_packet ffi c data).1 = errNotInit) ∧
    (∀ (ffi : RustFFI) (c : NoteeceCore) (data : String),
        c.isInitialized = true → ffi.process_sync_packet data = none →
        (process_sync_packet ffi c data).1 = errNullResp) ∧
    errNotInit ≠ errNullResp ∧
    (∀ (ffi : RustFFI) (c : NoteeceCore) (d : String),
        ffi.initiate_key_exchange d = none →
        (initiate_key_exchange ffi c d).1 = errKeyExchange) ∧
    (∀ (ffi : RustFFI) (c : NoteeceCore),
        c.isInitialized = false → (generate_handshake ffi c).1 = "") ∧
    (∀ (ffi : RustFFI) (c : NoteeceCore),
        ffi.generate_handshake = none → (generate_handshake ffi c).1 = "") := by
  refine ⟨?_, ?_, by decide, ?_, ?_, ?_⟩
  · intro ffi c data h
    simp [process_sync_packet, h]
  · intro ffi c data hc h
    simp [process_sync_packet, hc, h]
  · intro ffi c d h
    simp [initiate_key_exchange, h]
  · intro ffi c h
    simp [generate_handshake, h]
  · intro ffi c h
    cases hc : c.isInitialized <;> simp [generate_handshake, hc, h]

/-- Witness for the amended C3 theorem at concrete states and a
concrete oracle. -/
theorem structured_errors_witness :
    (process_sync_packet ffi0 newCore "pkt").1 = errNotInit ∧
    (process_sync_packet ffi0 ⟨some 1, true⟩ "pkt").1 = errNullResp ∧
    (initiate_key_exchange ffi0 newCore "d1").1 = errKeyExchange :=
  ⟨structured_errors_amended.1 ffi0 newCore "pkt" rfl,
   structured_errors_amended.2.1 ffi0 ⟨some 1, true⟩ "pkt" rfl rfl,
   structured_errors_amended.2.2.2.1 ffi0 newCore "d1" rfl⟩

/-- C4 (counterexample): calling `completeKeyExchange` with a peer key
that is by construction not a curve point returns plain `undefined` —
the very value returned on success (here also under a succeeding
oracle with a different key) — so neither `HandshakeError::InvalidKey`
nor `HandshakeError::NoSession` is observable in the value the bridge
returns. -/
theorem completeKeyExchange_unobservable_cex :
    completeKeyExchangeJSI ffi0
        [JSVal.str "device-1", JSVal.str "not-a-curve-point"]
      = Except.ok JSVal.undefined ∧
    completeKeyExchangeJSI ffi0
        [JSVal.str "device-1", JSVal.str "not-a-curve-point"]
      = completeKeyExchangeJSI ffiLive
          [JSVal.str "device-1", JSVal.str "valid-key"] :=
  ⟨rfl, rfl⟩

/-- C4 (amended): the bridge's `completeKeyExchange` throws a `JSError`
when `deviceId` or `peerPublicKey` is missing or not a string, and
otherwise always returns `undefined`: `rust_complete_key_exchange`
returns `void`, so any `HandshakeError` raised inside the core is not
observable in the value this binding returns. -/
theorem completeKeyExchange_returns_undefined_amended :
    (∀ (ffi : RustFFI) (d k : String) (rest : List JSVal),
        completeKeyExchangeJSI ffi (JSVal.str d :: JSVal.str k :: rest)
          = Except.ok JSVal.undefined) ∧
    (∀ (ffi : RustFFI),
        completeKeyExchangeJSI ffi []
          = Except.error "completeKeyExchange requires deviceId and peerPublicKey") ∧
    (∀ (ffi : RustFFI) (d : String),
        completeKeyExchangeJSI ffi [JSVal.str d]
          = Except.error "completeKeyExchange requires deviceId and peerPublicKey") :=
  ⟨fun _ _ _ _ => rfl, fun _ => rfl, fun _ _ => rfl⟩

/-- C5 (counterexample): `startSync` returns plain `undefined` for a
concrete device — the same value under a null-answering and under a
succeeding oracle — so no `CapacityError` can be returned to the
caller through this binding. -/
theorem startSync_no_capacity_error_cex :
    startSyncJSI ffi0 [JSVal.str "device-9"] = Except.ok JSVal.undefined ∧
    startSyncJSI ffi0 [JSVal.str "device-9"]
      = startSyncJSI ffiLive [JSVal.str "device-9"] :=
  ⟨rfl, rfl⟩

/-- C5 (amended): the bridge's `startSync` throws a `JSError` when the
device id argument is missing or not a string, and otherwise always
returns `undefined`: `rust_start_sync` returns `void`, so a
`CapacityError` raised when the configured session maximum is reached
is not returned to the caller through this binding. -/
theorem startSync_returns_undefined_amended :
    (∀ (ffi : RustFFI) (d : String) (rest : List JSVal),
        startSyncJSI ffi (JSVal.str d :: rest) = Except.ok JSVal.undefined) ∧
    (∀ (ffi : RustFFI),
        startSyncJSI ffi [] = Except.error "startSync requires a device ID") ∧
    (∀ (ffi : RustFFI) (q : ℚ) (rest : List JSVal),
        startSyncJSI ffi (JSVal.num q :: rest)
          = Except.error "startSync requires a device ID") :=
  ⟨fun _ _ _ => rfl, fun _ => rfl, fun _ _ _ => rfl⟩

/-- C6: `get_sync_history` (modelled from the spec, the core being
outside `src/`) clamps non-positive limits to 1, returns exactly the
last `max limit 1` entries of the chronological log with the most
recent first, keeps reverse chronological order whenever the log is
chronological, and returns only entries of the log (omitted entries
are never summarized or merged into new ones). -/
theorem get_sync_history_spec :
    (∀ (log : List HistoryEntry) (limit : Int), limit ≤ 0 →
        get_sync_history log limit = get_sync_history log 1) ∧
    (∀ (log : List HistoryEntry) (limit : Int),
        get_sync_history log limit
          = (log.drop (log.length - (max limit 1).toNat)).reverse) ∧
    (∀ (log : List HistoryEntry) (limit : Int),
        log.Pairwise (fun a b => a.ended_at ≤ b.ended_at) →
        (get_sync_history log limit).Pairwise
          (fun a b => b.ended_at ≤ a.ended_at)) ∧
    (∀ (log : List HistoryEntry) (limit : Int) (e : HistoryEntry),
        e ∈ get_sync_history log limit → e ∈ log) := by
  refine ⟨?_, ?_, ?_, ?_⟩
  · intro log limit h
    have hm : max limit 1 = 1 := max_eq_right (h.trans zero_le_one)
    simp [get_sync_history, hm]
  · intro log limit
    simpa [get_sync_history] using
      (@List.take_reverse _ log ((max limit 1).toNat))
  · intro log limit h
    have h1 : log.reverse.Pairwise (fun a b => b.ended_at ≤ a.ended_at) :=
      List.pairwise_reverse.mpr h
    simpa [get_sync_history] using h1.sublist (List.take_sublist _ _)
  · intro log limit e he
    have h1 : e ∈ log.reverse :=
      List.mem_of_mem_take (by simpa [get_sync_history] using he)
    exact List.mem_reverse.mp h1

/-- Witness for C6 at a concrete two-entry log: a negative limit is
clamped to 1 and the result of a limit-2 query is in reverse
chronological order. -/
theorem get_sync_history_spec_witness :
    get_sync_history [he1, he2] (-3) = get_sync_history [he1, he2] 1 ∧
    (get_sync_history [he1, he2] 2).Pairwise
      (fun a b => b.ended_at ≤ a.ended_at) :=
  ⟨get_sync_history_spec.1 [he1, he2] (-3) (by decide),
   get_sync_history_spec.2.2.1 [he1, he2] 2 (by decide)⟩

/-- C7: member calls on two separately constructed `NoteeceCore`
instances are independent — any interleaving of calls leaves each
instance exactly as if it had run its own calls alone, and no shared
`g_core` state is involved (the singleton appears only in the JNI
entry points, which take it as an explicit argument). -/
theorem core_instances_independent (ffi : RustFFI)
    (ops : List (Bool × CoreOp)) (a b : NoteeceCore) :
    runPair ffi (a, b) ops
      = (runOps ffi a (sideOps true ops), runOps ffi b (sideOps false ops)) := by
  induction ops generalizing a b with
  | nil => rfl
  | cons hd tl ih =>
    obtain ⟨side, op⟩ := hd
    cases side
    · simpa [runPair, runOps, sideOps, List.filter_cons] using
        ih a (stepCore ffi b op)
    · simpa [runPair, runOps, sideOps, List.filter_cons] using
        ih (stepCore ffi a op) b

/-- C8: a fresh instance satisfies the invariant that `is_initialized`
holds exactly when `rust_agent` is non-null, every member call
preserves it, and the two member functions guarded by the flag
(`process_sync_packet`, `generate_handshake`) perform no FFI call at
all on an uninitialized instance. -/
theorem core_init_invariant :
    coreInv newCore ∧
    (∀ (ffi : RustFFI) (c : NoteeceCore) (op : CoreOp),
        coreInv c → coreInv (stepCore ffi c op)) ∧
    (∀ (ffi : RustFFI) (c : NoteeceCore) (data : String),
        c.isInitialized = false →
        (process_sync_packet ffi c data).2.2 = []) ∧
    (∀ (ffi : RustFFI) (c : NoteeceCore),
        c.isInitialized = false → (generate_handshake ffi c).2.2 = []) := by
  refine ⟨by simp [coreInv, newCore], ?_, ?_, ?_⟩
  · intro ffi c op h
    cases op with
    | doInit db =>
        cases hc : c.isInitialized
        · cases hffi : ffi.init_core db <;>
            simp [stepCore, initializeCore, hc, hffi, coreInv]
        · simpa [stepCore, initializeCore, hc] using h
    | doShutdown =>
        cases ha : c.rust_agent
        · simpa [stepCore, shutdown, ha] using h
        · simp [stepCore, shutdown, ha, coreInv]
    | doProcess data => simpa [stepCore, process_state_eq] using h
    | doHandshake => simpa [stepCore, handshake_state_eq] using h
    | doDiscover => simpa [stepCore, discover_state_eq] using h
    | doInitiateKE d => simpa [stepCore, initiateKE_state_eq] using h
    | doProgress d => simpa [stepCore, progress_state_eq] using h
  · intro ffi c data h
    simp [process_sync_packet, h]
  · intro ffi c h
    simp [generate_handshake, h]

/-- Witness for C8: the invariant holds for a fresh instance taken
through one `initialize` step, and an uninitialized instance's
`process_sync_packet` performs no FFI call. -/
theorem core_init_invariant_witness :
    coreInv (stepCore ffi0 newCore (CoreOp.doInit "db.sqlite")) ∧
    (process_sync_packet ffi0 newCore "pkt").2.2 = [] :=
  ⟨core_init_invariant.2.1 ffi0 newCore (CoreOp.doInit "db.sqlite")
      (by simp [coreInv, newCore]),
   core_init_invariant.2.2.1 ffi0 newCore "pkt" rfl⟩

/-- C9: `initialize` on an already-initialized instance returns `true`,
keeps the existing handle, and performs no FFI call; `shutdown` on a
null handle is a no-op with no FFI call; and, on the instance state,
initialize-initialize equals initialize and shutdown-shutdown equals
shutdown. -/
theorem init_shutdown_idempotent :
    (∀ (ffi : RustFFI) (h : Nat) (db : String),
        initializeCore ffi ⟨some h, true⟩ db = (true, ⟨some h, true⟩, [])) ∧
    (∀ (ffi : RustFFI) (b : Bool),
        shutdown ffi ⟨none, b⟩ = (⟨none, b⟩, [])) ∧
    (∀ (ffi : RustFFI) (c : NoteeceCore) (db : String),
        (initializeCore ffi (initializeCore ffi c db).2.1 db).2.1
          = (initializeCore ffi c db).2.1) ∧
    (∀ (ffi : RustFFI) (c : NoteeceCore),
        (shutdown ffi (shutdown ffi c).1).1 = (shutdown ffi c).1) := by
  refine ⟨fun _ _ _ => rfl, fun _ _ => rfl, ?_, ?_⟩
  · intro ffi c db
    cases hc : c.isInitialized
    · cases hffi : ffi.init_core db <;>
        simp [initializeCore, hc, hffi]
    · simp [initializeCore, hc]
  · intro ffi c
    cases ha : c.rust_agent <;> simp [shutdown, ha]

/-- C10: the JSI `getSyncHistory` binding passes 20 to the core when
the first argument is absent or not a number, and otherwise passes the
number's truncation toward zero through unchanged — negative and
fractional limits included, with no clamping at this layer (the probe
oracle reports back the exact limit it received; `mkRat (-5) 2` is
-2.5). -/
theorem getSyncHistory_limit_passthrough :
    (∀ (ffi : RustFFI) (q : ℚ) (rest : List JSVal),
        getSyncHistoryJSI ffi (JSVal.num q :: rest)
          = Except.ok (rustStrToJSI (ffi.get_sync_history (truncInt q)))) ∧
    (∀ (ffi : RustFFI),
        getSyncHistoryJSI ffi []
          = Except.ok (rustStrToJSI (ffi.get_sync_history 20))) ∧
    (∀ (ffi : RustFFI) (s : String) (rest : List JSVal),
        getSyncHistoryJSI ffi (JSVal.str s :: rest)
          = Except.ok (rustStrToJSI (ffi.get_sync_history 20))) ∧
    (∀ (ffi : RustFFI) (rest : List JSVal),
        getSyncHistoryJSI ffi (JSVal.undefined :: rest)
          = Except.ok (rustStrToJSI (ffi.get_sync_history 20))) ∧
    getSyncHistoryJSI ffiProbe [JSVal.num (mkRat (-5) 1)]
      = Except.ok (JSVal.str "-5") ∧
    getSyncHistoryJSI ffiProbe [JSVal.num (mkRat (-5) 2)]
      = Except.ok (JSVal.str "-2") ∧
    getSyncHistoryJSI ffiProbe [JSVal.num (mkRat 5 2)]
      = Except.ok (JSVal.str "2") ∧
    getSyncHistoryJSI ffiProbe [JSVal.num (mkRat 0 1)]
      = Except.ok (JSVal.str "0") :=
  ⟨fun _ _ _ => rfl, fun _ => rfl, fun _ _ _ => rfl, fun _ _ => rfl,
   by decide, by decide, by decide, by decide⟩

end Noteece
